import Mathlib

/-!
Shallow embedding of the udigest paper-curation agent
(src/agent.py, src/main.py, src/scrapers/) and proofs about it.

External collaborators (the arxiv client, the wikipedia lookup, the DDGS
web search, the dspy reasoning engine, and the jinja templates) are not
part of this repository; they are modelled as explicit oracle parameters,
and where a claim depends on a documented contract of such a library the
contract is taken as a hypothesis of the theorem.
-/

namespace UDigest

/-- Models the python string slice s[:n]: the first n characters of s. -/
def sliceTo (s : String) (n : Nat) : String := ⟨s.data.take n⟩

/-- Models python str.strip(): remove leading and trailing whitespace. -/
def pyStrip (s : String) : String :=
  ⟨((s.data.dropWhile Char.isWhitespace).reverse.dropWhile Char.isWhitespace).reverse⟩

/-- Models python p.rsplit(chr, 1)[0] for a single character separator:
everything before the last occurrence of the separator, or the whole
string when the separator does not occur. -/
def rsplitHeadData (sep : Char) (cs : List Char) : List Char :=
  if sep ∈ cs then (((cs.reverse.dropWhile (fun c => c ≠ sep)).drop 1).reverse) else cs

/-! ## Tools (src/agent.py lines 19-118) -/

/-- Embeds arxiv.SortCriterion (external arxiv library enumeration). -/
inductive SortCriterion where
  | relevance
  | lastUpdatedDate
  | submittedDate
deriving DecidableEq

/-- Embeds arxiv.SortOrder (external arxiv library enumeration). -/
inductive SortOrder where
  | ascending
  | descending
deriving DecidableEq

/-- Embeds the arxiv.Search record built in arxiv generic search
(src/agent.py lines 20-25). -/
structure ArxivSearch where
  query : String
  max_results : Nat
  sort_by : SortCriterion
  sort_order : SortOrder

/-- Embeds arxiv generic search (src/agent.py lines 19-32).  The external
arxiv client and the arxiv_item jinja template are passed as oracles:
clientResults models client.results(search) and render models
arxiv_template.render(arxiv=res).  The loop body appends the rendered
text of each result, i.e. a map. -/
def arxivGenericSearch {α : Type} (clientResults : ArxivSearch → List α)
    (render : α → String) (query : String) (k : Nat)
    (sort_criterion : SortCriterion) (sort_order : SortOrder) : List String :=
  (clientResults ⟨query, k, sort_criterion, sort_order⟩).map render

/-- Embeds arxiv_fetch_most_recent (src/agent.py lines 36-45). -/
def arxiv_fetch_most_recent {α : Type} (clientResults : ArxivSearch → List α)
    (render : α → String) (query : String) (k : Nat) : List String :=
  arxivGenericSearch clientResults render query k SortCriterion.submittedDate SortOrder.descending

/-- Embeds arxiv_fetch_most_relevant (src/agent.py lines 47-56). -/
def arxiv_fetch_most_relevant {α : Type} (clientResults : ArxivSearch → List α)
    (render : α → String) (query : String) (k : Nat) : List String :=
  arxivGenericSearch clientResults render query k SortCriterion.relevance SortOrder.descending

/-- Outcome of a call to wikipedia.summary (external wikipedia library):
a summary string, a DisambiguationError carrying its options, or a
PageError. -/
inductive WikiOutcome where
  | ok (summary : String)
  | disambig (options : List String)
  | pageError
deriving DecidableEq

/-- Embeds the disambiguation loop of wikipedia_term_search
(src/agent.py lines 80-91 and 96-98): walk the first k options, calling
the summary oracle on each; the first successful summary is prefixed
with the pending disambiguation info, failing options are skipped, and
if no option succeeded the pending info is appended on its own at the
end (python appends it after the loop when disamb_info is still set). -/
def wikiOptionsLoop (summaryOracle : String → WikiOutcome) :
    List String → Option String → List String
  | [], some info => [info]
  | [], none => []
  | opt :: rest, dinfo =>
    match summaryOracle opt with
    | WikiOutcome.ok s =>
      match dinfo with
      | some info => (info ++ "\n\n" ++ s) :: wikiOptionsLoop summaryOracle rest none
      | none => s :: wikiOptionsLoop summaryOracle rest none
    | _ => wikiOptionsLoop summaryOracle rest dinfo

/-- Embeds wikipedia_term_search (src/agent.py lines 58-100).  The
external wikipedia.summary call is the oracle.  The final return is
results[:k]. -/
def wikipedia_term_search (summaryOracle : String → WikiOutcome)
    (term : String) (k : Nat) : List String :=
  let results : List String :=
    match summaryOracle term with
    | WikiOutcome.ok summary => [summary]
    | WikiOutcome.pageError =>
      ["No Wikipedia page found for \x27" ++ term ++ "\x27"]
    | WikiOutcome.disambig options =>
      let disamb_info :=
        "Disambiguation for \x27" ++ term ++ "\x27:\n" ++
          String.intercalate "\n" (options.take k)
      wikiOptionsLoop summaryOracle (options.take k) (some disamb_info)
  results.take k

/-- One result dict from ddgs.text (external ddgs library): only the
href and body fields are read by the code. -/
structure DdgsResult where
  href : String
  body : String
deriving DecidableEq

/-- The snippet built for one search result in generic_internet_term_search
(src/agent.py line 116): the body text is stripped and sliced to 1024
characters; the href is interpolated untouched. -/
def ddgsSnippet (r : DdgsResult) : String :=
  "Link: " ++ r.href ++ "\nText: " ++ sliceTo (pyStrip r.body) 1024 ++ "\n"

/-- Embeds generic_internet_term_search (src/agent.py lines 102-118).
ddgsText models ddgs.text(term, max_results=k); the loop appends one
snippet per result. -/
def generic_internet_term_search (ddgsText : String → Nat → List DdgsResult)
    (term : String) (k : Nat) : List String :=
  (ddgsText term k).map ddgsSnippet

/-! ## The ReAct agent (src/agent.py lines 120-146; loop semantics of the
external dspy.ReAct class) -/

/-- One entry of an agent trajectory: the thought, the requested tool
with its arguments, and the observation obtained by dispatching it.
Models the thought_i / tool_name_i / tool_args_i / observation_i keys of
a dspy trajectory dict. -/
structure TrajEntry where
  thought : String
  tool_name : String
  tool_args : List String
  observation : List String
deriving DecidableEq

/-- One step emitted by the reasoning engine: either a thought plus a
tool-invocation request, or a final structured answer. -/
inductive ReasoningStep where
  | thoughtAction (thought : String) (tool_name : String) (tool_args : List String)
  | finalAnswer (decision : Bool) (remarks : String)
deriving DecidableEq

/-- The structured result of one agent execution, embedding the fields
of the dspy.Prediction read by curate: paper_decision, paper_remarks and
trajectory (dspy.ReAct predictions always carry a trajectory). -/
structure Prediction where
  paper_decision : Bool
  paper_remarks : String
  trajectory : List TrajEntry
deriving DecidableEq

/-- Modelled from the spec: the AgentLoop think/act cycle of spec
section 4.2, which in this repository is implemented by the external
dspy.ReAct class rather than by code under src/.  The engine oracle maps
the trajectory so far to a ReasoningStep; fuel is the iteration ceiling;
a FinalAnswer ends the loop, a ThoughtAction dispatches the tool and
appends the entry; an exhausted budget yields a synthesized negative
verdict and never raises. -/
def reactRun (engine : List TrajEntry → ReasoningStep)
    (dispatch : String → List String → List String) :
    Nat → List TrajEntry → Prediction
  | 0, traj =>
    ⟨false, "Budget exhausted: no final answer within the iteration ceiling.", traj⟩
  | fuel + 1, traj =>
    match engine traj with
    | ReasoningStep.finalAnswer decision remarks => ⟨decision, remarks, traj⟩
    | ReasoningStep.thoughtAction thought tool_name tool_args =>
      reactRun engine dispatch fuel
        (traj ++ [⟨thought, tool_name, tool_args, dispatch tool_name tool_args⟩])

/-- Embeds the dspy.ReAct instance as configured by new_instance: its
iteration ceiling and registered tool names. -/
structure ReActAgent where
  max_iters : Nat
  tools : List String
deriving DecidableEq

/-- Embeds new_instance (src/agent.py lines 132-146).  The source passes
the literal 5 as max_iters to dspy.ReAct (line 140), not the max_iters
parameter. -/
def new_instance (max_iters : Nat) : ReActAgent :=
  { max_iters := 5,
    tools := ["arxiv_fetch_most_recent", "arxiv_fetch_most_relevant",
              "wikipedia_term_search", "generic_internet_term_search"] }

/-! ## TaskScaffold and the driver (src/agent.py lines 148-223,
src/main.py lines 19-41) -/

/-- A file system: paths to contents, none meaning the file is absent. -/
def FileSys : Type := String → Option String

/-- Open a file for writing in mode w: the content becomes empty,
truncating whatever was there. -/
def fsOpenW (p : String) (fs : FileSys) : FileSys :=
  Function.update fs p (some "")

/-- Append to an open file: the new content is the old content followed
by the written string. -/
def fsAppend (p : String) (s : String) (fs : FileSys) : FileSys :=
  Function.update fs p (some (((fs p).getD "") ++ s))

/-- The trajectory file path built in TaskScaffold enter
(src/agent.py line 172): output_path.rsplit(chr(46), 1)[0] plus
the suffix _trajectory.md. -/
def trajectoryPath (output_path : String) : String :=
  String.mk (rsplitHeadData '.' output_path.data) ++ "_trajectory.md"

/-- Embeds the state of a TaskScaffold (src/agent.py lines 148-166):
output_file and trajectory_file hold the path of the open file, none
when closed. -/
structure TaskScaffold where
  user_prefs : String
  output_path : String
  agent : ReActAgent
  output_file : Option String
  log_trajectory : Bool
  trajectory_file : Option String

/-- Embeds TaskScaffold init (src/agent.py lines 159-166): user_prefs is
the content read from the prefs file; both files start closed. -/
def mkScaffold (user_prefs output_path : String) (agent : ReActAgent)
    (log_trajectory : Bool) : TaskScaffold :=
  ⟨user_prefs, output_path, agent, none, log_trajectory, none⟩

/-- Embeds TaskScaffold enter (src/agent.py lines 168-174): open the
output path in mode w, then, when trajectory logging is enabled, open
the trajectory path in mode w as well. -/
def scaffoldEnter (sc : TaskScaffold) (fs : FileSys) : TaskScaffold × FileSys :=
  let fs1 := fsOpenW sc.output_path fs
  if sc.log_trajectory then
    let tp := trajectoryPath sc.output_path
    ({ sc with output_file := some sc.output_path, trajectory_file := some tp },
     fsOpenW tp fs1)
  else
    ({ sc with output_file := some sc.output_path }, fs1)

/-- Embeds TaskScaffold exit (src/agent.py lines 176-183): close both
files (closing does not change file contents). -/
def scaffoldExit (sc : TaskScaffold) : TaskScaffold :=
  { sc with output_file := none, trajectory_file := none }

/-- The exceptions curate can raise: the RuntimeError for a scaffold
that was not entered (line 193), an exception from papers.scrape()
(line 195), and an exception from the agent call (line 197). -/
inductive CurateErr where
  | notEntered
  | sourceAcquisition
  | engineFailure
deriving DecidableEq

/-- One write-side effect of curate: a write to the output file, a write
to the trajectory file, or a flush of the trajectory file. -/
inductive Event where
  | outWrite (s : String)
  | trajWrite (s : String)
  | trajFlush
deriving DecidableEq

/-- The rendered trajectory template: trajectory_template.render with
keyword arguments trajectory, paper_idx, total_papers, final_decision,
final_remarks, num_steps (src/agent.py lines 205-212).  The template
lives outside src/, so rendering is an oracle of this shape. -/
def RenderFn : Type :=
  List TrajEntry → Nat → Nat → Bool → String → Nat → String

/-- The num_steps value computed at src/agent.py line 204: the number of
trajectory keys starting with thought_, i.e. one per trajectory entry. -/
def numThoughtSteps (traj : List TrajEntry) : Nat := traj.length

/-- The block written to the output file for an accepted paper
(src/agent.py lines 218-221), the four consecutive writes concatenated. -/
def outputBlock (idx total : Nat) (paper_text remarks : String) : String :=
  "# Paper " ++ toString (idx + 1) ++ " / " ++ toString total ++ "\n" ++
  "## Information:\n" ++ paper_text ++ "\n\n" ++
  "## Remarks:\n" ++ remarks ++ "\n" ++
  "\n\n"

/-- The write events of one iteration of the curate loop (src/agent.py
lines 202-221): when trajectory logging is enabled and the trajectory
file is open, the rendered block, a blank line and a flush (the rendered
prediction always has a trajectory attribute); then, when the decision
is true, the output block. -/
def docEvents (render : RenderFn) (log_trajectory trajOpen : Bool)
    (total idx : Nat) (paper_text : String) (result : Prediction) : List Event :=
  (if log_trajectory && trajOpen then
    [Event.trajWrite (render result.trajectory idx total result.paper_decision
        result.paper_remarks (numThoughtSteps result.trajectory)),
     Event.trajWrite "\n\n", Event.trajFlush]
   else []) ++
  (if result.paper_decision then
    [Event.outWrite (outputBlock idx total paper_text result.paper_remarks)]
   else [])

/-- The for loop of curate (src/agent.py lines 196-222) over the
enumerated paper texts: each iteration calls the agent (an exception
there aborts the run, keeping the events of the finished iterations) and
emits that iteration's write events. -/
def curateLoop (render : RenderFn)
    (agentRun : String → String → Except Unit Prediction)
    (log_trajectory trajOpen : Bool) (user_prefs : String) (total : Nat) :
    List (Nat × String) → Except CurateErr Unit × List Event
  | [] => (Except.ok (), [])
  | (idx, paper_text) :: rest =>
    match agentRun user_prefs paper_text with
    | Except.error _ => (Except.error CurateErr.engineFailure, [])
    | Except.ok result =>
      let evs := docEvents render log_trajectory trajOpen total idx paper_text result
      let tail := curateLoop render agentRun log_trajectory trajOpen user_prefs total rest
      (tail.1, evs ++ tail.2)

/-- Embeds TaskScaffold.curate (src/agent.py lines 185-223): raise when
the scaffold was not entered, then acquire the paper texts from the
scraper (scrapeResult models papers.scrape(), an Except because the
scraper can raise), then run the loop.  Returns the outcome and the
ordered write events. -/
def curate (render : RenderFn)
    (agentRun : String → String → Except Unit Prediction)
    (scrapeResult : Except Unit (List String)) (sc : TaskScaffold) :
    Except CurateErr Unit × List Event :=
  match sc.output_file with
  | none => (Except.error CurateErr.notEntered, [])
  | some _ =>
    match scrapeResult with
    | Except.error _ => (Except.error CurateErr.sourceAcquisition, [])
    | Except.ok paper_texts =>
      curateLoop render agentRun sc.log_trajectory sc.trajectory_file.isSome
        sc.user_prefs paper_texts.length paper_texts.enum

/-- Apply one write event to the file system, given the output path and
the trajectory path. -/
def applyEvent (outPath trajPath : String) (fs : FileSys) : Event → FileSys
  | Event.outWrite s => fsAppend outPath s fs
  | Event.trajWrite s => fsAppend trajPath s fs
  | Event.trajFlush => fs

/-- Apply a list of write events in order. -/
def applyEvents (outPath trajPath : String) (evs : List Event) (fs : FileSys) : FileSys :=
  evs.foldl (applyEvent outPath trajPath) fs

/-- Embeds the driver (src/main.py lines 34-41): build the scaffold with
a new agent instance, enter the with statement, run curate, and leave
the with statement, which runs exit on every path, normal or raising.
Returns the outcome, the final scaffold and the final file system. -/
def runMain (render : RenderFn)
    (agentRun : String → String → Except Unit Prediction)
    (scrapeResult : Except Unit (List String))
    (user_prefs output_path : String) (log_trajectory : Bool)
    (max_iters : Nat) (fs0 : FileSys) :
    Except CurateErr Unit × TaskScaffold × FileSys :=
  let sc := mkScaffold user_prefs output_path (new_instance max_iters) log_trajectory
  let entered := scaffoldEnter sc fs0
  let res := curate render agentRun scrapeResult entered.1
  let fs2 := applyEvents output_path (trajectoryPath output_path) res.2 entered.2
  (res.1, scaffoldExit entered.1, fs2)

/-- The strings written to the output file, in order, among a list of
write events. -/
def outWrites : List Event → List String
  | [] => []
  | Event.outWrite s :: rest => s :: outWrites rest
  | _ :: rest => outWrites rest

/-! ## Concrete fixtures used to evaluate the theorems on explicit inputs -/

/-- A concrete trajectory-template oracle that renders every block as
the empty string. -/
def render0 : RenderFn := fun _ _ _ _ _ _ => ""

/-- A concrete deterministic agent: it accepts every paper whose text is
not d2 and remarks R, with an empty trajectory. -/
def agentFn0 : String → String → Prediction :=
  fun _ paper_text => ⟨paper_text != "d2", "R", []⟩

/-- agentFn0 wrapped as a non-raising agent call. -/
def agentRun0 : String → String → Except Unit Prediction :=
  fun user_prefs paper_text => Except.ok (agentFn0 user_prefs paper_text)

/-- An empty file system: no file exists. -/
def emptyFs : FileSys := fun _ => none

/-- A scaffold for report.md without trajectory logging, already entered. -/
def scEntered : TaskScaffold :=
  (scaffoldEnter (mkScaffold "prefs" "report.md" (new_instance 5) false) emptyFs).1

/-- A scaffold for report.md with trajectory logging, already entered. -/
def scEnteredLog : TaskScaffold :=
  (scaffoldEnter (mkScaffold "prefs" "report.md" (new_instance 5) true) emptyFs).1

/-- A scaffold for report.md that was never entered. -/
def scClosed : TaskScaffold :=
  mkScaffold "prefs" "report.md" (new_instance 5) false

/-- A concrete arxiv client oracle returning max_results copies of a
fixed rendered line. -/
def clientResults0 : ArxivSearch → List String :=
  fun s => List.replicate s.max_results "arxiv result"

/-- A concrete wikipedia summary oracle that always succeeds. -/
def summaryOracle0 : String → WikiOutcome := fun _ => WikiOutcome.ok "summary"

/-- A concrete web search oracle returning at most max_results of two
fixed results, honoring the documented ddgs cap. -/
def ddgsText0 : String → Nat → List DdgsResult :=
  fun _ n => [⟨"hrefA", " bodyA "⟩, ⟨"hrefB", "bodyB"⟩].take n

/-- A web search oracle returning a single result whose link URL is
1100 characters long and whose body is empty. -/
def ddgsTextLong : String → Nat → List DdgsResult :=
  fun _ _ => [⟨String.mk (List.replicate 1100 'a'), ""⟩]

/-! ## Helper lemmas -/

theorem strData_append (s t : String) : (s ++ t).data = s.data ++ t.data := by
  cases s
  cases t
  rfl

theorem strMk_data (s : String) : String.mk s.data = s := rfl

theorem sliceTo_length_le (s : String) (n : Nat) : (sliceTo s n).length ≤ n := by
  simp only [sliceTo, String.length]
  exact s.data.length_take_le n

theorem snippet_length_eq (r : DdgsResult) :
    (ddgsSnippet r).length = r.href.length + (sliceTo (pyStrip r.body) 1024).length + 14 := by
  show ("Link: " ++ r.href ++ "\nText: " ++ sliceTo (pyStrip r.body) 1024 ++ "\n").length
    = r.href.length + (sliceTo (pyStrip r.body) 1024).length + 14
  rw [String.length_append, String.length_append, String.length_append, String.length_append]
  show 6 + r.href.length + 7 + (sliceTo (pyStrip r.body) 1024).length + 1
    = r.href.length + (sliceTo (pyStrip r.body) 1024).length + 14
  omega

set_option maxRecDepth 4096 in
theorem longHref_length : (String.mk (List.replicate 1100 'a')).length = 1100 := by
  show (List.replicate 1100 'a').length = 1100
  simp

theorem curateLoop_ok (render : RenderFn) (f : String → String → Prediction)
    (logT trajOpen : Bool) (prefs : String) (total : Nat) (l : List (Nat × String)) :
    curateLoop render (fun p t => Except.ok (f p t)) logT trajOpen prefs total l =
      (Except.ok (),
       l.flatMap (fun p => docEvents render logT trajOpen total p.1 p.2 (f prefs p.2))) := by
  induction l with
  | nil => rfl
  | cons hd tl ih =>
    obtain ⟨idx, text⟩ := hd
    simp [curateLoop, ih]

theorem outWrites_append (a b : List Event) :
    outWrites (a ++ b) = outWrites a ++ outWrites b := by
  induction a with
  | nil => rfl
  | cons e rest ih => cases e <;> simp [outWrites, ih]

theorem outWrites_flatMap {α : Type} (g : α → List Event) (l : List α) :
    outWrites (l.flatMap g) = l.flatMap (fun a => outWrites (g a)) := by
  induction l with
  | nil => rfl
  | cons a rest ih => simp [outWrites_append, ih]

theorem outWrites_docEvents (render : RenderFn) (logT trajOpen : Bool)
    (total idx : Nat) (text : String) (res : Prediction) :
    outWrites (docEvents render logT trajOpen total idx text res) =
      if res.paper_decision then [outputBlock idx total text res.paper_remarks] else [] := by
  unfold docEvents
  rw [outWrites_append]
  cases logT && trajOpen <;> cases res.paper_decision <;> simp [outWrites]

theorem flatMap_ite_singleton {α β : Type} (P : α → Bool) (g : α → β) (l : List α) :
    (l.flatMap fun a => if P a then [g a] else []) = (l.filter P).map g := by
  induction l with
  | nil => rfl
  | cons a rest ih =>
    by_cases h : P a <;> simp [h, ih, List.filter_cons]

theorem dropWhile_ne_append (sep : Char) (l r : List Char) (h : ∀ c ∈ l, c ≠ sep) :
    (l ++ sep :: r).dropWhile (fun c => decide (c ≠ sep)) = sep :: r := by
  induction l with
  | nil => simp [List.dropWhile]
  | cons c cs ih =>
    have hc : c ≠ sep := h c (by simp)
    have ih2 := ih (fun x hx => h x (by simp [hx]))
    simp [List.dropWhile_cons, hc]
    simpa using ih2

theorem trajectoryPath_replaces_ext (base ext : String) (h : '.' ∉ ext.data) :
    trajectoryPath (base ++ "." ++ ext) = base ++ "_trajectory.md" := by
  have hdata : (base ++ "." ++ ext).data = base.data ++ '.' :: ext.data := by
    rw [strData_append, strData_append, List.append_assoc]
    rfl
  have hmem : '.' ∈ (base ++ "." ++ ext).data := by
    rw [hdata]
    simp
  have hrev : (base.data ++ '.' :: ext.data).reverse
      = ext.data.reverse ++ '.' :: base.data.reverse := by
    simp
  have hopts : ∀ c ∈ ext.data.reverse, c ≠ '.' :=
    fun c hc heq => h (heq ▸ List.mem_reverse.mp hc)
  unfold trajectoryPath rsplitHeadData
  rw [if_pos hmem, hdata, hrev,
    dropWhile_ne_append '.' ext.data.reverse base.data.reverse hopts]
  simp [strMk_data]

theorem curateLoop_congr (render1 render2 : RenderFn)
    (a1 a2 : String → String → Except Unit Prediction)
    (hr : ∀ tr i tot d re n, render1 tr i tot d re n = render2 tr i tot d re n)
    (ha : ∀ p t, a1 p t = a2 p t)
    (logT trajOpen : Bool) (prefs : String) (total : Nat) (l : List (Nat × String)) :
    curateLoop render1 a1 logT trajOpen prefs total l
      = curateLoop render2 a2 logT trajOpen prefs total l := by
  induction l with
  | nil => rfl
  | cons hd tl ih =>
    obtain ⟨idx, text⟩ := hd
    simp only [curateLoop, ha]
    cases a2 prefs text with
    | error e => rfl
    | ok result => simp only [docEvents, hr, ih]

theorem curate_congr (render1 render2 : RenderFn)
    (a1 a2 : String → String → Except Unit Prediction)
    (hr : ∀ tr i tot d re n, render1 tr i tot d re n = render2 tr i tot d re n)
    (ha : ∀ p t, a1 p t = a2 p t)
    (scrapeResult : Except Unit (List String)) (sc : TaskScaffold) :
    curate render1 a1 scrapeResult sc = curate render2 a2 scrapeResult sc := by
  unfold curate
  cases sc.output_file with
  | none => rfl
  | some op =>
    cases scrapeResult with
    | error e => rfl
    | ok paper_texts =>
      exact curateLoop_congr render1 render2 a1 a2 hr ha _ _ _ _ _

/-! ## Claim theorems -/

/-- Claim C1 states that the agent instance constructed by new_instance
enforces the configured iteration ceiling n, and that with n = 2 and an
engine that never emits a FinalAnswer exactly 2 think/act entries occur.
Evaluating the code instead: new_instance 2 configures the agent with
iteration ceiling 5 (src/agent.py line 140 passes the literal 5, not the
parameter), so the loop with an engine that never emits a FinalAnswer
runs 5 think/act iterations, contradicting the function docstring and
the CLI --max-iters help. -/
theorem C1_new_instance_ignores_ceiling :
    (new_instance 2).max_iters = 5 ∧
    (reactRun (fun _ => ReasoningStep.thoughtAction "survey" "wikipedia_term_search" [])
        (fun _ _ => []) (new_instance 2).max_iters []).trajectory.length = 5 :=
  ⟨rfl, rfl⟩

/-- Claim C2: for every document in the scraped sequence, curate appends
a block to the output file if and only if the agent decision for that
document is true, and the block header carries the 1-based source-order
index together with the total document count: the output writes are
exactly the outputBlock of each accepted enumerated document, in order. -/
theorem C2_output_block_iff_decision (render : RenderFn)
    (f : String → String → Prediction) (texts : List String)
    (sc : TaskScaffold) (op : String) (hop : sc.output_file = some op) :
    outWrites (curate render (fun p t => Except.ok (f p t)) (Except.ok texts) sc).2 =
      (texts.enum.filter (fun p => (f sc.user_prefs p.2).paper_decision)).map
        (fun p => outputBlock p.1 texts.length p.2 (f sc.user_prefs p.2).paper_remarks) := by
  simp only [curate, hop, curateLoop_ok, outWrites_flatMap, outWrites_docEvents]
  exact flatMap_ite_singleton _ _ _

theorem C2_witness :
    outWrites (curate render0 (fun p t => Except.ok (agentFn0 p t))
        (Except.ok ["d1", "d2", "d3"]) scEntered).2 =
      ["# Paper 1 / 3\n## Information:\nd1\n\n## Remarks:\nR\n\n\n",
       "# Paper 3 / 3\n## Information:\nd3\n\n## Remarks:\nR\n\n\n"] :=
  (C2_output_block_iff_decision render0 agentFn0 ["d1", "d2", "d3"] scEntered
    "report.md" rfl).trans (by decide)

/-- Claim C5: on every exit path of a run, for every outcome of the
scraper and of the agent, normal or raising, both the output sink and
the trajectory sink are closed when the run context is torn down. -/
theorem C5_sinks_closed_on_every_exit (render : RenderFn)
    (agentRun : String → String → Except Unit Prediction)
    (scrapeResult : Except Unit (List String))
    (user_prefs output_path : String) (log_trajectory : Bool)
    (max_iters : Nat) (fs0 : FileSys) :
    (runMain render agentRun scrapeResult user_prefs output_path log_trajectory
        max_iters fs0).2.1.output_file = none ∧
    (runMain render agentRun scrapeResult user_prefs output_path log_trajectory
        max_iters fs0).2.1.trajectory_file = none :=
  ⟨rfl, rfl⟩

/-- Claim C9: calling curate on a TaskScaffold that has not been entered
as a context manager raises the RuntimeError before acquiring the
document sequence, whatever the scraper would have returned, and no
output or trajectory write event occurs. -/
theorem C9_curate_requires_entered_context (render : RenderFn)
    (agentRun : String → String → Except Unit Prediction)
    (scrapeResult : Except Unit (List String)) (sc : TaskScaffold)
    (h : sc.output_file = none) :
    curate render agentRun scrapeResult sc = (Except.error CurateErr.notEntered, []) := by
  simp [curate, h]

theorem C9_witness :
    curate render0 agentRun0 (Except.error ()) scClosed
      = (Except.error CurateErr.notEntered, []) :=
  C9_curate_requires_entered_context render0 agentRun0 (Except.error ()) scClosed rfl


/-- Claim C6: when trajectory logging is enabled, the write events of a
run are, per processed document in order, whether accepted or rejected:
exactly one rendered trajectory block (the template applied to that
document's ordered trajectory, final decision and remarks), a blank
line, and a flush of the trajectory sink, all emitted before the next
document's events, followed by the output block when accepted. -/
theorem C6_one_trajectory_block_per_document (render : RenderFn)
    (f : String → String → Prediction) (texts : List String)
    (sc : TaskScaffold) (op tp : String)
    (hop : sc.output_file = some op) (htp : sc.trajectory_file = some tp)
    (hlog : sc.log_trajectory = true) :
    (curate render (fun p t => Except.ok (f p t)) (Except.ok texts) sc).2 =
      texts.enum.flatMap (fun p =>
        [Event.trajWrite (render (f sc.user_prefs p.2).trajectory p.1 texts.length
            (f sc.user_prefs p.2).paper_decision (f sc.user_prefs p.2).paper_remarks
            (numThoughtSteps (f sc.user_prefs p.2).trajectory)),
         Event.trajWrite "\n\n", Event.trajFlush] ++
        (if (f sc.user_prefs p.2).paper_decision then
          [Event.outWrite (outputBlock p.1 texts.length p.2 (f sc.user_prefs p.2).paper_remarks)]
         else [])) := by
  simp only [curate, hop, htp, curateLoop_ok, docEvents, hlog, Option.isSome_some,
    Bool.and_self, if_true]

theorem C6_witness :
    (curate render0 (fun p t => Except.ok (agentFn0 p t))
        (Except.ok ["d1"]) scEnteredLog).2 =
      [Event.trajWrite "", Event.trajWrite "\n\n", Event.trajFlush,
       Event.outWrite "# Paper 1 / 1\n## Information:\nd1\n\n## Remarks:\nR\n\n\n"] :=
  (C6_one_trajectory_block_per_document render0 agentFn0 ["d1"] scEnteredLog
    "report.md" "report_trajectory.md" rfl rfl rfl).trans (by decide)

/-- Claim C4: re-running the driver on the same document sequence with
the same preference text, a deterministic reasoning engine and
deterministic rendering produces the identical outcome, scaffold and
file system: two runs whose engine and template oracles agree pointwise
are equal. -/
theorem C4_two_run_determinism (render1 render2 : RenderFn)
    (a1 a2 : String → String → Except Unit Prediction)
    (scrapeResult : Except Unit (List String))
    (user_prefs output_path : String) (log_trajectory : Bool)
    (max_iters : Nat) (fs0 : FileSys)
    (hr : ∀ tr i tot d re n, render1 tr i tot d re n = render2 tr i tot d re n)
    (ha : ∀ p t, a1 p t = a2 p t) :
    runMain render1 a1 scrapeResult user_prefs output_path log_trajectory max_iters fs0
      = runMain render2 a2 scrapeResult user_prefs output_path log_trajectory max_iters fs0 := by
  unfold runMain
  dsimp only
  rw [curate_congr render1 render2 a1 a2 hr ha]

theorem C4_witness :
    runMain render0 agentRun0 (Except.ok ["d1", "d2"]) "prefs" "report.md" true 5 emptyFs
      = runMain render0 agentRun0 (Except.ok ["d1", "d2"]) "prefs" "report.md" true 5 emptyFs :=
  C4_two_run_determinism render0 render0 agentRun0 agentRun0 (Except.ok ["d1", "d2"])
    "prefs" "report.md" true 5 emptyFs (fun _ _ _ _ _ _ => rfl) (fun _ _ => rfl)


/-- Claim C3 counterexample: the claim says that when the scraper raises
before any document is processed no trajectory file is created, but in a
run with trajectory logging enabled the trajectory file
report_trajectory.md exists (empty) after the aborted run, because the
context manager creates it before curate calls the scraper. -/
theorem C3_counterexample_trajectory_file_created :
    trajectoryPath "report.md" = "report_trajectory.md" ∧
    (runMain render0 agentRun0 (Except.error ()) "prefs" "report.md" true 5 emptyFs).1
      = Except.error CurateErr.sourceAcquisition ∧
    (runMain render0 agentRun0 (Except.error ()) "prefs" "report.md" true 5 emptyFs).2.2
      "report_trajectory.md" = some "" :=
  ⟨rfl, rfl, by decide⟩

/-- Claim C3 amended: if acquiring the document sequence fails before
any processing, the run aborts with the fatal source-acquisition error,
the output file is present but empty, and the trajectory file is empty
when trajectory logging is enabled and absent otherwise; no content is
written to either. -/
theorem C3_amended_scrape_failure_leaves_empty_files (render : RenderFn)
    (agentRun : String → String → Except Unit Prediction)
    (user_prefs output_path : String) (log_trajectory : Bool) (max_iters : Nat)
    (hne : trajectoryPath output_path ≠ output_path) :
    (runMain render agentRun (Except.error ()) user_prefs output_path log_trajectory
        max_iters emptyFs).1 = Except.error CurateErr.sourceAcquisition ∧
    (runMain render agentRun (Except.error ()) user_prefs output_path log_trajectory
        max_iters emptyFs).2.2 output_path = some "" ∧
    (runMain render agentRun (Except.error ()) user_prefs output_path log_trajectory
        max_iters emptyFs).2.2 (trajectoryPath output_path)
      = (if log_trajectory then some "" else none) := by
  unfold runMain
  dsimp only
  cases hl : log_trajectory with
  | false =>
    simp [curate, scaffoldEnter, mkScaffold, hl, applyEvents, fsOpenW, emptyFs,
      Function.update_apply, hne]
  | true =>
    simp [curate, scaffoldEnter, mkScaffold, hl, applyEvents, fsOpenW, emptyFs,
      Function.update_apply, hne]

theorem C3_amended_witness :
    (runMain render0 agentRun0 (Except.error ()) "prefs" "report.md" true 5 emptyFs).2.2
      (trajectoryPath "report.md") = some "" :=
  ((C3_amended_scrape_failure_leaves_empty_files render0 agentRun0 "prefs" "report.md"
    true 5 (by decide)).2.2).trans rfl

/-- Claim C10: entering the TaskScaffold context opens the output file
in write mode, truncating any pre-existing content to empty, and, when
trajectory logging is enabled, likewise creates and truncates a
trajectory file whose path is the output path with its final extension
replaced by the suffix _trajectory.md. -/
theorem C10_enter_truncates_and_names_trajectory (sc : TaskScaffold) (fs : FileSys) :
    (scaffoldEnter sc fs).2 sc.output_path = some "" ∧
    (scaffoldEnter sc fs).1.output_file = some sc.output_path ∧
    (sc.log_trajectory = true →
      (scaffoldEnter sc fs).2 (trajectoryPath sc.output_path) = some "" ∧
      (scaffoldEnter sc fs).1.trajectory_file = some (trajectoryPath sc.output_path)) ∧
    (∀ base ext : String, '.' ∉ ext.data →
      trajectoryPath (base ++ "." ++ ext) = base ++ "_trajectory.md") := by
  refine ⟨?_, ?_, fun hl => ⟨?_, ?_⟩, fun base ext h => trajectoryPath_replaces_ext base ext h⟩
  · unfold scaffoldEnter fsOpenW
    by_cases hl : sc.log_trajectory <;> simp [hl, Function.update_apply]
  · unfold scaffoldEnter
    by_cases hl : sc.log_trajectory <;> simp [hl]
  · simp [scaffoldEnter, hl, fsOpenW, Function.update_apply]
  · simp [scaffoldEnter, hl]

theorem C10_witness :
    (scaffoldEnter (mkScaffold "prefs" "report.md" (new_instance 5) true)
        (fun p => if p = "report.md" then some "OLD CONTENT" else none)).2 "report.md"
      = some "" ∧
    trajectoryPath ("report" ++ "." ++ "md") = "report" ++ "_trajectory.md" :=
  ⟨(C10_enter_truncates_and_names_trajectory
      (mkScaffold "prefs" "report.md" (new_instance 5) true)
      (fun p => if p = "report.md" then some "OLD CONTENT" else none)).1,
   (C10_enter_truncates_and_names_trajectory
      (mkScaffold "prefs" "report.md" (new_instance 5) true)
      (fun p => if p = "report.md" then some "OLD CONTENT" else none)).2.2.2
      "report" "md" (by decide)⟩


/-- Claim C7: every tool applies a result-count cap at its own boundary:
for every query and every k, wikipedia_term_search, 
arxiv_fetch_most_recent, arxiv_fetch_most_relevant and
generic_internet_term_search each return at most k strings.  The
wikipedia cap is unconditional (the code slices results to k); the arxiv
and ddgs tools request at most k from their libraries, whose documented
max_results contract is the hypothesis. -/
theorem C7_every_tool_caps_result_count {α : Type} (summaryOracle : String → WikiOutcome)
    (clientResults : ArxivSearch → List α) (render : α → String)
    (ddgsText : String → Nat → List DdgsResult) (term query : String) (k : Nat)
    (harxiv : ∀ s : ArxivSearch, (clientResults s).length ≤ s.max_results)
    (hddgs : ∀ t n, (ddgsText t n).length ≤ n) :
    (wikipedia_term_search summaryOracle term k).length ≤ k ∧
    (arxiv_fetch_most_recent clientResults render query k).length ≤ k ∧
    (arxiv_fetch_most_relevant clientResults render query k).length ≤ k ∧
    (generic_internet_term_search ddgsText term k).length ≤ k := by
  refine ⟨?_, ?_, ?_, ?_⟩
  · unfold wikipedia_term_search
    exact List.length_take_le _ _
  · simpa [arxiv_fetch_most_recent, arxivGenericSearch] using
      harxiv ⟨query, k, SortCriterion.submittedDate, SortOrder.descending⟩
  · simpa [arxiv_fetch_most_relevant, arxivGenericSearch] using
      harxiv ⟨query, k, SortCriterion.relevance, SortOrder.descending⟩
  · simpa [generic_internet_term_search] using hddgs term k

theorem C7_witness :
    (wikipedia_term_search summaryOracle0 "laplace" 3).length ≤ 3 ∧
    (arxiv_fetch_most_recent clientResults0 id "raft" 3).length ≤ 3 ∧
    (arxiv_fetch_most_relevant clientResults0 id "raft" 3).length ≤ 3 ∧
    (generic_internet_term_search ddgsText0 "laplace" 3).length ≤ 3 :=
  C7_every_tool_caps_result_count summaryOracle0 clientResults0 id ddgsText0
    "laplace" "raft" 3
    (fun s => by simp [clientResults0])
    (fun t n => by simp [ddgsText0])

/-- Claim C8 counterexample: the claim says every string returned by
generic_internet_term_search has capped character length (body text
limited to 1024 characters, so no returned string grows without bound),
but a single result whose link URL is 1100 characters long yields a
snippet of 1114 characters, exceeding the 1038-character maximum that
the 1024-character body cap plus the fixed framing would allow: the
href is interpolated untruncated. -/
theorem C8_counterexample_unbounded_snippet :
    1038 < ((generic_internet_term_search ddgsTextLong "query" 5).headD "").length := by
  have h1 : (generic_internet_term_search ddgsTextLong "query" 5).headD ""
      = ddgsSnippet ⟨String.mk (List.replicate 1100 'a'), ""⟩ := rfl
  rw [h1, snippet_length_eq]
  have h2 : (⟨String.mk (List.replicate 1100 'a'), ""⟩ : DdgsResult).href.length = 1100 :=
    longHref_length
  have h3 : (sliceTo (pyStrip "") 1024).length = 0 := rfl
  rw [h2, h3]
  norm_num

/-- Claim C8 amended: every string returned by
generic_internet_term_search is the snippet of some search result, with
the body text truncated to 1024 characters, so its length is at most the
length of that result's untruncated link URL plus 1038. -/
theorem C8_amended_body_capped (ddgsText : String → Nat → List DdgsResult)
    (term : String) (k : Nat) :
    ∀ s ∈ generic_internet_term_search ddgsText term k,
      ∃ r ∈ ddgsText term k, s = ddgsSnippet r ∧ s.length ≤ r.href.length + 1038 := by
  intro s hs
  unfold generic_internet_term_search at hs
  obtain ⟨r, hr, rfl⟩ := List.mem_map.mp hs
  refine ⟨r, hr, rfl, ?_⟩
  rw [snippet_length_eq]
  have := sliceTo_length_le (pyStrip r.body) 1024
  omega

theorem C8_amended_witness :
    ∃ r ∈ ddgsText0 "laplace" 2,
      ddgsSnippet ⟨"hrefA", " bodyA "⟩ = ddgsSnippet r ∧
      (ddgsSnippet ⟨"hrefA", " bodyA "⟩).length ≤ r.href.length + 1038 :=
  C8_amended_body_capped ddgsText0 "laplace" 2
    (ddgsSnippet ⟨"hrefA", " bodyA "⟩) (by decide)


end UDigest
